import Mathlib

/-! # Verification of the ETAGO_APIv2 detection service

This file checks the natural-language specification of the repository
against a shallow embedding of `src/app.py` and
`src/router/detection_post.py`.

Embedding conventions:
* a decoded RGB image (a `PIL.Image` after `convert("RGB")`, equivalently
  the numpy array obtained from it) is an `Img`: dimensions plus a pixel
  function;
* a row of the pandas prediction DataFrame is a `Detection`; the DataFrame
  is a `List Detection` in model-output row order;
* external collaborators that the repository does not implement — the YOLO
  model `predict` call, PIL text rasterisation, `cv2.GaussianBlur`, the
  JPEG encoder, the `ultralytics` `Annotator.box_label` raster drawing and
  its `colors` palette — are function parameters of the embedded
  operations, so each theorem quantifies over them;
* Python `int()` applied to an exact rational is `pyInt` (truncation toward
  zero) and numpy basic-slice endpoint normalisation is `npIdx`.
-/

/-- One RGB pixel value (a numpy `uint8` triple; this code only copies
pixels or sets them to 0, so channel arithmetic never overflows). -/
abbrev Pixel : Type := ℕ × ℕ × ℕ

/-- A decoded image: height, width, and the pixel at row `y`, column `x`.
Pixel values at out-of-range coordinates are irrelevant: every statement
either restricts to `y < height`, `x < width` or compares images through
operations that treat coordinates uniformly. -/
structure Img where
  height : ℕ
  width : ℕ
  pix : ℕ → ℕ → Pixel

/-- Two images agree in dimensions and at every pixel coordinate
("pixel-identical"). -/
def Img.PixEq (a b : Img) : Prop :=
  a.height = b.height ∧ a.width = b.width ∧ ∀ y x, a.pix y x = b.pix y x

/-- Reverse the channel order of one pixel: RGB ↔ BGR, the effect of the
numpy slice `[:, :, ::-1]` used in `censor_objects`. -/
def swapRB (p : Pixel) : Pixel := (p.2.2, p.2.1, p.1)

/-- Apply the RGB ↔ BGR channel reversal to a whole image
(`np.array(image.convert('RGB'))[:, :, ::-1]` on entry to `censor_objects`
and the inverse slice on exit). -/
def swapChannels (img : Img) : Img :=
  { img with pix := fun y x => swapRB (img.pix y x) }

/-- Python `int()` applied to an exact rational: truncation toward zero
(`num.tdiv den` truncates toward zero and `den > 0`). -/
def pyInt (q : ℚ) : ℤ := q.num.tdiv q.den

/-- numpy basic-slice endpoint normalisation for an axis of length `len`:
a negative endpoint counts from the end of the axis (clamped below at 0 by
`Int.toNat`), a nonnegative endpoint is clamped above at `len`. -/
def npIdx (len : ℕ) (i : ℤ) : ℕ :=
  if i < 0 then (len + i).toNat else min i.toNat len

/-- One row of the prediction DataFrame built by `transform_predict_to_df`:
columns `xmin`, `ymin`, `xmax`, `ymax`, `confidence`, `class`, `name`.
(`class` is a reserved word here, so that field is `cls`.) -/
structure Detection where
  xmin : ℚ
  ymin : ℚ
  xmax : ℚ
  ymax : ℚ
  confidence : ℚ
  cls : ℤ
  name : String
deriving DecidableEq

/-- JSON values, as produced at the `detect_res.to_json(orient='records')`
boundary of the JSON handler. -/
inductive JVal where
  | str (s : String)
  | num (q : ℚ)
  | arr (elems : List JVal)
  | obj (fields : List (String × JVal))

/-- The response computation of the
`/detection/img_object_detection_to_json` handler after the model call
(src/router/detection_post.py): the returned Python dict is modelled as its
ordered key/value list.  The initial dead assignment
`result={'detect_objects': None}` in the handler is overwritten on every
path and has no observable effect, so it does not appear. -/
def detection_to_json_response (predict : List Detection) : List (String × JVal) :=
  if predict.length = 0 then
    [("message", JVal.str "No objects detected.")]
  else
    [("detect_objects_names",
        JVal.str (String.intercalate ", " (predict.map Detection.name))),
     ("detect_objects",
        JVal.arr (predict.map fun d =>
          JVal.obj [("name", JVal.str d.name), ("confidence", JVal.num d.confidence)]))]

/-- The label drawn for one detection in `add_bboxs_on_img`
(src/app.py): `f"{row['name']}: {int(row['confidence']*100)}%"`. -/
def bboxLabel (row : Detection) : String :=
  row.name ++ ": " ++ toString (pyInt (row.confidence * 100)) ++ "%"

/-- The Bool comparison on `xmin` used to embed
`predict.sort_values(by=['xmin'], ascending=True)`. -/
def xminLe (a b : Detection) : Bool := decide (a.xmin ≤ b.xmin)

/-- `predict.sort_values(by=['xmin'], ascending=True)` in
`add_bboxs_on_img`: the prediction rows in ascending `xmin` order.  (pandas
does not promise a particular order for rows with equal `xmin`; this
embedding fixes one — a stable merge sort — which every theorem below is
insensitive to.) -/
def sortedByXmin (predict : List Detection) : List Detection :=
  predict.mergeSort xminLe

/-- One `annotator.box_label(bbox, text, color=colors(row['class'], True))`
call: the box list `[xmin, ymin, xmax, ymax]`, the label text, and the
class id from which the external `colors` palette derives the color. -/
structure BoxLabelOp where
  bbox : List ℚ
  label : String
  cls : ℤ
deriving DecidableEq

/-- The sequence of `box_label` drawing calls issued by
`add_bboxs_on_img`: one per prediction row, in ascending-`xmin` iteration
order. -/
def drawOps (predict : List Detection) : List BoxLabelOp :=
  (sortedByXmin predict).map fun row =>
    ⟨[row.xmin, row.ymin, row.xmax, row.ymax], bboxLabel row, row.cls⟩

/-- `add_bboxs_on_img(image, predict)` (src/app.py): the external
`Annotator` rasteriser `boxDraw` is applied to the image and the ordered
drawing calls. -/
def add_bboxs_on_img (boxDraw : Img → List BoxLabelOp → Img)
    (image : Img) (predict : List Detection) : Img :=
  boxDraw image (drawOps predict)

/-- A PIL fill color: either a named color string or an RGB tuple, matching
the two forms used by the banner code (`outline_color = 'black'`,
`fill_color = (255, 165, 0)`). -/
inductive PyColor where
  | named (s : String)
  | rgb (r g b : ℕ)
deriving DecidableEq

/-- One `draw.text((x, y), text, font=font, fill=color)` call of the banner
code.  The font (`arial.ttf` at size 15) and the rasterisation itself are
external to the repository and absorbed into the `render` parameter of the
handlers. -/
structure TextOp where
  pos : ℤ × ℤ
  text : String
  fill : PyColor
deriving DecidableEq

/-- Python `range(a, b)` as a list of integers. -/
def pyRange (a b : ℤ) : List ℤ :=
  (List.range (b - a).toNat).map fun i => a + (i : ℤ)

/-- The "NO OBJECTS DETECTED." banner: the exact sequence of `draw.text`
calls issued when no objects are detected.  This block appears verbatim in
both the annotated-image handler and the censored-image handler
(src/router/detection_post.py): for each `adj in range(-2, 3)` four black
outline passes, then one orange fill pass at `(20, 20)`. -/
def noObjectsBannerOps : List TextOp :=
  ((pyRange (-2) 3).flatMap fun adj =>
    [⟨(20 + adj, 20), "NO OBJECTS DETECTED.", PyColor.named "black"⟩,
     ⟨(20, 20 + adj), "NO OBJECTS DETECTED.", PyColor.named "black"⟩,
     ⟨(20 + adj, 20 + adj), "NO OBJECTS DETECTED.", PyColor.named "black"⟩,
     ⟨(20 - adj, 20 - adj), "NO OBJECTS DETECTED.", PyColor.named "black"⟩])
  ++ [⟨(20, 20), "NO OBJECTS DETECTED.", PyColor.rgb 255 165 0⟩]

/-- The numpy region selected by
`open_cv_image[y1:y2, x1:x2]` for the row, after `int()` truncation of the
box coordinates, on an image of height `h` and width `w`. -/
def inNpRegion (h w : ℕ) (row : Detection) (y x : ℕ) : Prop :=
  npIdx h (pyInt row.ymin) ≤ y ∧ y < npIdx h (pyInt row.ymax) ∧
  npIdx w (pyInt row.xmin) ≤ x ∧ x < npIdx w (pyInt row.xmax)

instance (h w : ℕ) (row : Detection) (y x : ℕ) : Decidable (inNpRegion h w row y x) := by
  unfold inNpRegion
  infer_instance

/-- `open_cv_image[y1:y2, x1:x2] = 0`: set every pixel of the selected
region to solid black. -/
def maskSlice (img : Img) (row : Detection) : Img :=
  { img with pix := fun y x =>
      if inNpRegion img.height img.width row y x then (0, 0, 0) else img.pix y x }

/-- Reading the subarray `open_cv_image[y1:y2, x1:x2]` as its own image
(the argument passed to `cv2.GaussianBlur`). -/
def readSlice (img : Img) (row : Detection) : Img :=
  { height := npIdx img.height (pyInt row.ymax) - npIdx img.height (pyInt row.ymin),
    width := npIdx img.width (pyInt row.xmax) - npIdx img.width (pyInt row.xmin),
    pix := fun y x =>
      img.pix (npIdx img.height (pyInt row.ymin) + y) (npIdx img.width (pyInt row.xmin) + x) }

/-- Writing an equal-shaped array back into the slice
`open_cv_image[y1:y2, x1:x2] = sub`. -/
def writeSlice (img : Img) (sub : Img) (row : Detection) : Img :=
  { img with pix := fun y x =>
      if inNpRegion img.height img.width row y x then
        sub.pix (y - npIdx img.height (pyInt row.ymin)) (x - npIdx img.width (pyInt row.xmin))
      else img.pix y x }

/-- One iteration of the `for index, row in predictions.iterrows()` loop of
`censor_objects` (src/app.py): Gaussian-blur the slice if `method ==
'blur'`, blacken it if `method == 'mask'`, otherwise do nothing.  `gblur`
is the external `cv2.GaussianBlur(..., (0, 0), 10)` applied to the
extracted subarray. -/
def censorStep (gblur : Img → Img) (acc : Img) (row : Detection) (method : String) : Img :=
  if method = "blur" then writeSlice acc (gblur (readSlice acc row)) row
  else if method = "mask" then maskSlice acc row
  else acc

/-- `censor_objects(image, predictions, method)` (src/app.py): convert to
BGR, process each prediction row in DataFrame order, convert back to
RGB. -/
def censor_objects (gblur : Img → Img) (image : Img)
    (predictions : List Detection) (method : String) : Img :=
  swapChannels
    (predictions.foldl (fun acc row => censorStep gblur acc row method) (swapChannels image))

/-- The pixels inside the clipped bounding box of a detection, for the
claim "every pixel strictly inside any detection's clipped box becomes
solid black".  Modelled from the spec words: the box `[xmin, xmax] ×
[ymin, ymax]` is truncated to integer pixel bounds (the spec fixes
truncation before slicing) and clipped to the image rectangle. -/
def inClippedBox (h w : ℕ) (row : Detection) (y x : ℕ) : Prop :=
  max (pyInt row.ymin) 0 ≤ (y : ℤ) ∧ (y : ℤ) < min (pyInt row.ymax) (h : ℤ) ∧
  max (pyInt row.xmin) 0 ≤ (x : ℤ) ∧ (x : ℤ) < min (pyInt row.xmax) (w : ℤ)

instance (h w : ℕ) (row : Detection) (y x : ℕ) : Decidable (inClippedBox h w row y x) := by
  unfold inClippedBox
  infer_instance

/-- A value of the `StreamingResponse(content=..., media_type=...)`
returned by the two image handlers; `content` is the encoded byte
stream. -/
inductive ImgResponse where
  | streaming (content : List ℕ) (media_type : String)
deriving DecidableEq

/-- The response computation of the
`/detection/img_object_detection_to_img` handler after the model call:
if no objects were detected, draw the banner on the input image and encode
it, otherwise draw the bounding boxes and encode.  `enc` is the external
JPEG encoder (`get_bytes_from_image`), `render` the external PIL text
rasteriser, `boxDraw` the external `Annotator` rasteriser. -/
def detection_to_img_response (enc : Img → List ℕ) (render : Img → List TextOp → Img)
    (boxDraw : Img → List BoxLabelOp → Img) (input_image : Img)
    (predict : List Detection) : ImgResponse :=
  if predict.length = 0 then
    ImgResponse.streaming (enc (render input_image noObjectsBannerOps)) "image/jpeg"
  else
    ImgResponse.streaming (enc (add_bboxs_on_img boxDraw input_image predict)) "image/jpeg"

/-- The response computation of the
`/detection/img_object_detection_to_censored_img` handler after the model
call: the banner on an empty result, otherwise
`censor_objects(input_image, predict, method='blur')`, then encoding. -/
def detection_to_censored_img_response (enc : Img → List ℕ)
    (render : Img → List TextOp → Img) (gblur : Img → Img) (input_image : Img)
    (predict : List Detection) : ImgResponse :=
  if predict.length = 0 then
    ImgResponse.streaming (enc (render input_image noObjectsBannerOps)) "image/jpeg"
  else
    ImgResponse.streaming (enc (censor_objects gblur input_image predict "blur")) "image/jpeg"

/-- The keyword arguments of a `model.predict(imgsz=..., source=...,
conf=..., save=..., augment=..., flipud=..., fliplr=..., mosaic=...)`
call (the `source` image is passed separately). -/
structure PredictArgs where
  imgsz : ℕ
  conf : ℚ
  save : Bool
  augment : Bool
  flipud : ℚ
  fliplr : ℚ
  mosaic : ℚ
deriving DecidableEq

/-- One raw box of the model output
(`results[0].boxes.xyxy` row, its `conf` and its `cls`). -/
structure RawBox where
  xmin : ℚ
  ymin : ℚ
  xmax : ℚ
  ymax : ℚ
  conf : ℚ
  cls : ℤ

/-- The external YOLO model: an arbitrary predict function together with
the read-only class-id → name mapping `model.model.names`. -/
structure YOLOModel where
  predict : PredictArgs → Img → List RawBox
  names : ℤ → String

/-- `transform_predict_to_df(results, labeles_dict)` (src/app.py): one
DataFrame row per raw box, in model-output order, with the class name
looked up in the id → name mapping. -/
def transform_predict_to_df (results : List RawBox) (labeles_dict : ℤ → String) :
    List Detection :=
  results.map fun b => ⟨b.xmin, b.ymin, b.xmax, b.ymax, b.conf, b.cls, labeles_dict b.cls⟩

/-- `get_model_predict(model, input_image, save, image_size, conf,
augment)` (src/app.py): call the model with the given options, fixed
`flipud=0.0, fliplr=0.0, mosaic=0.0`, and convert the output. -/
def get_model_predict (model : YOLOModel) (input_image : Img) (save : Bool)
    (image_size : ℕ) (conf : ℚ) (augment : Bool) : List Detection :=
  transform_predict_to_df
    (model.predict ⟨image_size, conf, save, augment, 0, 0, 0⟩ input_image)
    model.names

/-- `detect_sample_model(input_image)` (src/app.py): the detect model call
wired into all three live endpoints, with `save=False, image_size=768,
augment=False, conf=0.5`.  The process-wide model singleton
`model_sample_detect` is the first parameter. -/
def detect_sample_model (model_sample_detect : YOLOModel) (input_image : Img) :
    List Detection :=
  get_model_predict model_sample_detect input_image false 768 (0.5 : ℚ) false

/-- The `/detection/img_object_detection_to_json` handler body after image
decoding: model call, then JSON composition. -/
def img_object_detection_to_json (model_sample_detect : YOLOModel)
    (input_image : Img) : List (String × JVal) :=
  detection_to_json_response (detect_sample_model model_sample_detect input_image)

/-- The `/detection/img_object_detection_to_img` handler body after image
decoding: model call, then annotated-image composition. -/
def img_object_detection_to_img (model_sample_detect : YOLOModel)
    (enc : Img → List ℕ) (render : Img → List TextOp → Img)
    (boxDraw : Img → List BoxLabelOp → Img) (input_image : Img) : ImgResponse :=
  detection_to_img_response enc render boxDraw input_image
    (detect_sample_model model_sample_detect input_image)

/-- The `/detection/img_object_detection_to_censored_img` handler body
after image decoding: model call, then censored-image composition. -/
def img_object_detection_to_censored_img (model_sample_detect : YOLOModel)
    (enc : Img → List ℕ) (render : Img → List TextOp → Img)
    (gblur : Img → Img) (input_image : Img) : ImgResponse :=
  detection_to_censored_img_response enc render gblur input_image
    (detect_sample_model model_sample_detect input_image)

/-- The names bound at module top level in src/app.py, in source order:
the imports, the single model initialisation, and the function
definitions. -/
def appModuleBindings : List String :=
  ["Image", "io", "pd", "np", "cv2", "Optional", "YOLO", "Annotator", "colors",
   "model_sample_detect",
   "get_image_from_bytes", "get_bytes_from_image", "transform_predict_to_df",
   "get_model_predict", "get_model_segment", "add_bboxs_on_img",
   "detect_sample_model", "censor_objects", "segment_sample_model"]

/-- The global (module-level) names referenced by the body of
`segment_sample_model` (src/app.py): its only local name is `predict`. -/
def segment_sample_model_globalRefs : List String :=
  ["get_model_segment", "model_sample_segment"]

/-! ## Concrete witnesses shared across statements -/

/-- A trivial encoder standing in for the external JPEG codec in witnesses. -/
def encZero : Img → List ℕ := fun _ => []

/-- A trivial text rasteriser for witnesses. -/
def renderId : Img → List TextOp → Img := fun i _ => i

/-- A trivial box rasteriser for witnesses. -/
def boxDrawId : Img → List BoxLabelOp → Img := fun i _ => i

/-- The identity standing in for the external Gaussian blur in witnesses. -/
def gblurId : Img → Img := fun i => i

/-- A concrete 1 × 1 test image. -/
def imgOne : Img := ⟨1, 1, fun _ _ => (3, 4, 5)⟩

/-- A concrete detection with unit box at the origin. -/
def detOne : Detection := ⟨0, 0, 1, 1, 1, 0, "a"⟩

/-! ## Helper lemmas -/

theorem swapRB_swapRB (p : Pixel) : swapRB (swapRB p) = p := rfl

theorem censorStep_mask (gblur : Img → Img) (acc : Img) (row : Detection) :
    censorStep gblur acc row "mask" = maskSlice acc row := by
  simp [censorStep]

theorem censorStep_other (gblur : Img → Img) (acc : Img) (row : Detection)
    (method : String) (h1 : method ≠ "blur") (h2 : method ≠ "mask") :
    censorStep gblur acc row method = acc := by
  unfold censorStep
  rw [if_neg h1, if_neg h2]

theorem foldl_mask_pix (gblur : Img → Img) (l : List Detection) (img : Img) (y x : ℕ) :
    (List.foldl (fun acc row => censorStep gblur acc row "mask") img l).pix y x =
      if ∃ row ∈ l, inNpRegion img.height img.width row y x then (0, 0, 0)
      else img.pix y x := by
  induction l generalizing img with
  | nil => simp
  | cons d t ih =>
    rw [List.foldl_cons, censorStep_mask, ih]
    by_cases hd : inNpRegion img.height img.width d y x <;>
      by_cases ht : ∃ row ∈ t, inNpRegion img.height img.width row y x <;>
      simp [maskSlice, hd, ht]

theorem inNpRegion_iff_clipped (h w : ℕ) (row : Detection)
    (h1 : 0 ≤ pyInt row.xmin) (h2 : 0 ≤ pyInt row.ymin)
    (h3 : 0 ≤ pyInt row.xmax) (h4 : 0 ≤ pyInt row.ymax)
    (y x : ℕ) (hy : y < h) (hx : x < w) :
    inNpRegion h w row y x ↔ inClippedBox h w row y x := by
  unfold inNpRegion inClippedBox npIdx
  rw [if_neg (not_lt.mpr h2), if_neg (not_lt.mpr h4),
    if_neg (not_lt.mpr h1), if_neg (not_lt.mpr h3)]
  omega

theorem pyInt_eq_floor (q : ℚ) (h : 0 ≤ q) : pyInt q = ⌊q⌋ := by
  unfold pyInt
  rw [Rat.floor_def]
  exact Int.tdiv_eq_ediv (Rat.num_nonneg.mpr h) (Int.natCast_nonneg _)

/-! ## Claim theorems -/

/-- C1: for every non-empty DetectionSet, the JSON endpoint returns the
dictionary whose `detect_objects_names` field is the comma+space join of
the class names in the original model-output order, and whose
`detect_objects` field lists the name/confidence records in that same
order (not the xmin-sorted order used by rendering). -/
theorem json_mode_order_preserved (predict : List Detection) (h : predict ≠ []) :
    detection_to_json_response predict =
      [("detect_objects_names",
          JVal.str (String.intercalate ", " (predict.map Detection.name))),
       ("detect_objects",
          JVal.arr (predict.map fun d =>
            JVal.obj [("name", JVal.str d.name), ("confidence", JVal.num d.confidence)]))] := by
  unfold detection_to_json_response
  rw [if_neg fun hl => h (List.length_eq_zero.mp hl)]

theorem json_mode_order_preserved_witness :
    ([(⟨1, 2, 3, 4, 1, 0, "b"⟩ : Detection), ⟨0, 2, 3, 4, 1, 1, "a"⟩] ≠
        ([] : List Detection)) ∧
    detection_to_json_response [⟨1, 2, 3, 4, 1, 0, "b"⟩, ⟨0, 2, 3, 4, 1, 1, "a"⟩] =
      [("detect_objects_names",
          JVal.str (String.intercalate ", "
            ([(⟨1, 2, 3, 4, 1, 0, "b"⟩ : Detection), ⟨0, 2, 3, 4, 1, 1, "a"⟩].map Detection.name))),
       ("detect_objects",
          JVal.arr ([(⟨1, 2, 3, 4, 1, 0, "b"⟩ : Detection), ⟨0, 2, 3, 4, 1, 1, "a"⟩].map fun d =>
            JVal.obj [("name", JVal.str d.name), ("confidence", JVal.num d.confidence)]))] :=
  ⟨List.cons_ne_nil _ _, json_mode_order_preserved _ (List.cons_ne_nil _ _)⟩

/-- C2: for an empty DetectionSet the JSON endpoint returns exactly the
one-key dictionary with the "No objects detected." message; in particular
its only key is `message`, so there is no `detect_objects` key. -/
theorem json_mode_empty_message :
    detection_to_json_response [] = [("message", JVal.str "No objects detected.")] ∧
    (detection_to_json_response []).map Prod.fst = ["message"] :=
  ⟨rfl, rfl⟩

/-- C7: the Annotation Renderer iterates the detections in ascending order
of `xmin` — the drawn sequence is sorted by `xmin` and is a permutation of
the input rows — and the whole pipeline is a pure function of the image and
DetectionSet (`add_bboxs_on_img` is definitionally the rasteriser applied
to the deterministic `drawOps` sequence), so a fixed input always yields
the same draw order and image. -/
theorem annotation_draw_order_sorted (predict : List Detection) :
    List.Pairwise (fun a b : Detection => a.xmin ≤ b.xmin) (sortedByXmin predict) ∧
    (sortedByXmin predict).Perm predict ∧
    ∀ (boxDraw : Img → List BoxLabelOp → Img) (image : Img),
      add_bboxs_on_img boxDraw image predict = boxDraw image (drawOps predict) := by
  refine ⟨?_, List.mergeSort_perm predict xminLe, fun _ _ => rfl⟩
  have hs : List.Pairwise (fun a b => xminLe a b = true) (sortedByXmin predict) :=
    List.sorted_mergeSort
      (fun a b c hab hbc => by
        simp only [xminLe, decide_eq_true_eq] at *
        exact le_trans hab hbc)
      (fun a b => by
        simpa [xminLe, Bool.or_eq_true, decide_eq_true_eq] using le_total a.xmin b.xmin)
      predict
  exact hs.imp fun hab => by simpa [xminLe, decide_eq_true_eq] using hab

/-- C8: applying the Censor Transform to an empty DetectionSet is an
identity: the result is pixel-identical to the input image, for any method
and any blur implementation. -/
theorem censor_empty_identity (gblur : Img → Img) (img : Img) (method : String) :
    Img.PixEq (censor_objects gblur img [] method) img :=
  ⟨rfl, rfl, fun _ _ => rfl⟩

/-- C9: the detect model wired into the live endpoints is always invoked
with input size 768, confidence threshold 0.5, augmentation disabled and
the save-to-disk option disabled (plus `flipud=fliplr=mosaic=0`), and all
three handlers consume exactly that call. -/
theorem detect_model_invocation_args (model : YOLOModel) (input_image : Img)
    (enc : Img → List ℕ) (render : Img → List TextOp → Img)
    (boxDraw : Img → List BoxLabelOp → Img) (gblur : Img → Img) :
    detect_sample_model model input_image =
      transform_predict_to_df
        (model.predict ⟨768, (0.5 : ℚ), false, false, 0, 0, 0⟩ input_image) model.names ∧
    img_object_detection_to_json model input_image =
      detection_to_json_response
        (transform_predict_to_df
          (model.predict ⟨768, (0.5 : ℚ), false, false, 0, 0, 0⟩ input_image) model.names) ∧
    img_object_detection_to_img model enc render boxDraw input_image =
      detection_to_img_response enc render boxDraw input_image
        (transform_predict_to_df
          (model.predict ⟨768, (0.5 : ℚ), false, false, 0, 0, 0⟩ input_image) model.names) ∧
    img_object_detection_to_censored_img model enc render gblur input_image =
      detection_to_censored_img_response enc render gblur input_image
        (transform_predict_to_df
          (model.predict ⟨768, (0.5 : ℚ), false, false, 0, 0, 0⟩ input_image) model.names) :=
  ⟨rfl, rfl, rfl, rfl⟩

/-- C10: the body of `segment_sample_model` references the global name
`model_sample_segment`, which is bound nowhere at module level in
src/app.py (only `model_sample_detect` is initialised), so calling it
resolves an unbound name and the segment path is unusable as written. -/
theorem segment_model_unbound_global :
    "model_sample_segment" ∈ segment_sample_model_globalRefs ∧
    "model_sample_segment" ∉ appModuleBindings ∧
    "model_sample_detect" ∈ appModuleBindings ∧
    "get_model_segment" ∈ segment_sample_model_globalRefs ∧
    "get_model_segment" ∈ appModuleBindings := by
  decide

/-- C4: with a method string other than "blur" and "mask", both branch
tests of the loop body fail, so `censor_objects` silently skips every
region and returns an image pixel-identical to the input, for every
non-empty DetectionSet. -/
theorem censor_unknown_method_identity (gblur : Img → Img) (img : Img)
    (preds : List Detection) (method : String) (_hne : preds ≠ [])
    (h1 : method ≠ "blur") (h2 : method ≠ "mask") :
    Img.PixEq (censor_objects gblur img preds method) img := by
  unfold censor_objects
  have hf : ∀ (l : List Detection) (b : Img),
      List.foldl (fun acc row => censorStep gblur acc row method) b l = b := by
    intro l
    induction l with
    | nil => intro b; rfl
    | cons d t ih =>
      intro b
      rw [List.foldl_cons, censorStep_other _ _ _ _ h1 h2, ih]
  rw [hf]
  exact ⟨rfl, rfl, fun _ _ => rfl⟩

theorem censor_unknown_method_identity_witness :
    ([detOne] ≠ ([] : List Detection)) ∧
    ("pixelate" : String) ≠ "blur" ∧ ("pixelate" : String) ≠ "mask" ∧
    Img.PixEq (censor_objects gblurId imgOne [detOne] "pixelate") imgOne :=
  ⟨List.cons_ne_nil _ _, by decide, by decide,
   censor_unknown_method_identity gblurId imgOne [detOne] "pixelate"
     (List.cons_ne_nil _ _) (by decide) (by decide)⟩

/-- C5: in censored-image mode an empty DetectionSet yields the
"no objects" banner response — the very response of annotated-image mode —
while a non-empty one yields the Censor Transform applied with the fixed
method "blur" (mask is never used in this mode). -/
theorem censored_mode_blur_fixed (enc : Img → List ℕ)
    (render : Img → List TextOp → Img) (gblur : Img → Img)
    (boxDraw : Img → List BoxLabelOp → Img) (input_image : Img)
    (predict : List Detection) :
    (predict.length = 0 →
      detection_to_censored_img_response enc render gblur input_image predict =
        ImgResponse.streaming (enc (render input_image noObjectsBannerOps)) "image/jpeg" ∧
      detection_to_censored_img_response enc render gblur input_image predict =
        detection_to_img_response enc render boxDraw input_image predict) ∧
    (predict.length ≠ 0 →
      detection_to_censored_img_response enc render gblur input_image predict =
        ImgResponse.streaming (enc (censor_objects gblur input_image predict "blur"))
          "image/jpeg") := by
  constructor
  · intro h
    constructor <;>
      simp [detection_to_censored_img_response, detection_to_img_response, h]
  · intro h
    simp [detection_to_censored_img_response, h]

theorem censored_mode_blur_fixed_witness :
    (detection_to_censored_img_response encZero renderId gblurId imgOne [] =
      ImgResponse.streaming (encZero (renderId imgOne noObjectsBannerOps)) "image/jpeg") ∧
    (detection_to_censored_img_response encZero renderId gblurId imgOne [] =
      detection_to_img_response encZero renderId boxDrawId imgOne []) ∧
    (detection_to_censored_img_response encZero renderId gblurId imgOne [detOne] =
      ImgResponse.streaming (encZero (censor_objects gblurId imgOne [detOne] "blur"))
        "image/jpeg") :=
  ⟨((censored_mode_blur_fixed encZero renderId gblurId boxDrawId imgOne []).1 rfl).1,
   ((censored_mode_blur_fixed encZero renderId gblurId boxDrawId imgOne []).1 rfl).2,
   (censored_mode_blur_fixed encZero renderId gblurId boxDrawId imgOne [detOne]).2
     (by decide)⟩

/-- C3 counterexample: a detection whose truncated coordinates are negative
(box `[-3, -1] × [0, 1]` on a 1 × 4 image).  Its clipped box is empty, so
under the claim every pixel must stay unchanged; but the numpy slice
`[-3:-1]` counts from the right end of the axis, so mask-censoring blackens
pixel `(y, x) = (0, 1)`, which lies outside every clipped box. -/
theorem mask_censor_clipped_claim_counterexample :
    ¬ inClippedBox 1 4 ⟨-3, 0, -1, 1, 1, 0, "a"⟩ 0 1 ∧
    (censor_objects gblurId ⟨1, 4, fun _ _ => (5, 5, 5)⟩
        [⟨-3, 0, -1, 1, 1, 0, "a"⟩] "mask").pix 0 1 = (0, 0, 0) ∧
    (⟨1, 4, fun _ _ => (5, 5, 5)⟩ : Img).pix 0 1 = (5, 5, 5) ∧
    (censor_objects gblurId ⟨1, 4, fun _ _ => (5, 5, 5)⟩
        [⟨-3, 0, -1, 1, 1, 0, "a"⟩] "mask").pix 0 1 ≠
      (⟨1, 4, fun _ _ => (5, 5, 5)⟩ : Img).pix 0 1 := by
  decide

/-- C3 amended: provided every detection's truncated coordinates are
nonnegative (no box extends past the left or top image edge — the case the
spec leaves undefined), mask-censoring turns exactly the pixels inside some
detection's clipped box solid black and leaves every other in-bounds pixel
bit-identical to the input. -/
theorem mask_censor_blackens_clipped_boxes (gblur : Img → Img) (img : Img)
    (preds : List Detection)
    (hnn : ∀ row ∈ preds, 0 ≤ pyInt row.xmin ∧ 0 ≤ pyInt row.ymin ∧
      0 ≤ pyInt row.xmax ∧ 0 ≤ pyInt row.ymax)
    (y x : ℕ) (hy : y < img.height) (hx : x < img.width) :
    (censor_objects gblur img preds "mask").pix y x =
      if ∃ row ∈ preds, inClippedBox img.height img.width row y x then (0, 0, 0)
      else img.pix y x := by
  show swapRB ((List.foldl (fun acc row => censorStep gblur acc row "mask")
      (swapChannels img) preds).pix y x) = _
  rw [foldl_mask_pix]
  have hiff : (∃ row ∈ preds,
        inNpRegion (swapChannels img).height (swapChannels img).width row y x) ↔
      ∃ row ∈ preds, inClippedBox img.height img.width row y x := by
    refine exists_congr fun row => and_congr_right fun hrow => ?_
    obtain ⟨hx1, hy1, hx2, hy2⟩ := hnn row hrow
    exact inNpRegion_iff_clipped img.height img.width row hx1 hy1 hx2 hy2 y x hy hx
  by_cases hc : ∃ row ∈ preds, inClippedBox img.height img.width row y x
  · rw [if_pos (hiff.mpr hc), if_pos hc]
    rfl
  · rw [if_neg fun hn => hc (hiff.mp hn), if_neg hc]
    rfl

theorem mask_censor_blackens_clipped_boxes_witness :
    (∀ row ∈ [detOne], 0 ≤ pyInt row.xmin ∧ 0 ≤ pyInt row.ymin ∧
      0 ≤ pyInt row.xmax ∧ 0 ≤ pyInt row.ymax) ∧
    0 < imgOne.height ∧ 0 < imgOne.width ∧
    (censor_objects gblurId imgOne [detOne] "mask").pix 0 0 =
      (if ∃ row ∈ [detOne], inClippedBox imgOne.height imgOne.width row 0 0
        then (0, 0, 0) else imgOne.pix 0 0) :=
  ⟨by decide, by decide, by decide,
   mask_censor_blackens_clipped_boxes gblurId imgOne [detOne] (by decide) 0 0
     (by decide) (by decide)⟩

/-- C6 counterexample: at confidence 463/500 = 0.926 the drawn label is
"person: 92%" — `int()` truncates 92.6 — whereas rounding to the nearest
integer would give 93%. -/
theorem bbox_label_rounding_counterexample :
    bboxLabel ⟨10, 10, 50, 50, mkRat 463 500, 0, "person"⟩ = "person: 92%" ∧
    round ((mkRat 463 500 : ℚ) * 100) = (93 : ℤ) ∧
    bboxLabel ⟨10, 10, 50, 50, mkRat 463 500, 0, "person"⟩ ≠
      "person: " ++ toString (round ((mkRat 463 500 : ℚ) * 100)) ++ "%" := by
  have h1 : (mkRat 463 500 : ℚ) * 100 = mkRat 463 5 := by
    rw [Rat.mkRat_eq_divInt, Rat.mkRat_eq_divInt, Rat.divInt_eq_div, Rat.divInt_eq_div]
    norm_num
  have h2 : bboxLabel ⟨10, 10, 50, 50, mkRat 463 500, 0, "person"⟩ = "person: 92%" := by
    show "person" ++ ": " ++ toString (pyInt (mkRat 463 500 * 100)) ++ "%" = "person: 92%"
    rw [h1]
    decide
  have h3 : round ((mkRat 463 500 : ℚ) * 100) = (93 : ℤ) := by
    rw [h1, Rat.mkRat_eq_divInt, Rat.divInt_eq_div]
    norm_num [round_eq]
  refine ⟨h2, h3, ?_⟩
  rw [h2, h3]
  decide

/-- C6 amended: the label equals the class name, a colon and space, the
confidence times 100 truncated to an integer (truncation toward zero, which
for the nonnegative confidences produced by the model is the floor), then a
percent sign. -/
theorem bbox_label_truncates_confidence (row : Detection) (h : 0 ≤ row.confidence) :
    bboxLabel row = row.name ++ ": " ++ toString ⌊row.confidence * 100⌋ ++ "%" := by
  unfold bboxLabel
  rw [pyInt_eq_floor _ (mul_nonneg h (by norm_num))]

theorem bbox_label_truncates_confidence_witness :
    (0 : ℚ) ≤ (0 : ℚ) ∧
    bboxLabel ⟨0, 0, 1, 1, 0, 0, "a"⟩ = "a" ++ ": " ++ toString ⌊(0 : ℚ) * 100⌋ ++ "%" :=
  ⟨le_refl 0, bbox_label_truncates_confidence ⟨0, 0, 1, 1, 0, 0, "a"⟩ (le_refl 0)⟩
